import Mathlib

/-!
# Verification of the Transformer dialogue agent (parlai/agents/transformer/transformer.py)

A shallow embedding of the pieces of the ParlAI transformer agent that the
specification talks about: the metrics dictionary and its reporting, the
train/evaluate prediction step, saving and restoring of model and optimizer
state, observation handling, vectorization and batched acting, the
parse/v2t vocabulary round trip, and the defaultdict used by the
perplexity evaluator.

Python floats are modelled as rationals, Python ints as naturals, Python
None via Option, and raised exceptions via Except.  External library code
(torch, parlai.core.*) that is not part of this repository is either taken
as a function parameter or modelled from the specification, as marked.
-/

namespace Transformer

/-! ## Metrics (constructor line 188, reset_metrics, reset, report) -/

/-- The agent's metrics dictionary, initialized in the constructor to
loss 0.0, num_tokens 0, correct_tokens 0, total_skipped_batches 0. -/
structure Metrics where
  loss : ℚ
  num_tokens : ℕ
  correct_tokens : ℕ
  total_skipped_batches : ℕ
  deriving Repr, DecidableEq

/-- The initial metrics dictionary from TransformerAgent.__init__. -/
def initMetrics : Metrics :=
  { loss := 0, num_tokens := 0, correct_tokens := 0, total_skipped_batches := 0 }

/-- A concrete metrics state used to instantiate theorems. -/
def metricsEx : Metrics :=
  { loss := 6, num_tokens := 2, correct_tokens := 0, total_skipped_batches := 0 }

/-- TransformerAgent.reset_metrics: zero loss, num_tokens and
correct_tokens.  total_skipped_batches is not touched. -/
def reset_metrics (m : Metrics) : Metrics :=
  { m with loss := 0, num_tokens := 0, correct_tokens := 0 }

/-- A reported perplexity value: either a finite rational or the float
infinity produced on OverflowError. -/
inductive PplVal where
  | fin (q : ℚ)
  | inf
  deriving Repr, DecidableEq

/-- The dictionary returned by TransformerAgent.report; a field is none
when the corresponding key is absent from the returned dict m. -/
structure Report where
  token_acc : Option ℚ
  loss : Option ℚ
  ppl : Option PplVal
  total_skipped_batches : Option ℚ
  deriving Repr, DecidableEq

/-- Apply round_sigfigs to a possibly-infinite value (the final loop of
report rounds every entry; infinity stays infinity). -/
def roundPpl (roundSig : ℚ → ℚ) : PplVal → PplVal
  | .fin q => .fin (roundSig q)
  | .inf => .inf

/-- TransformerAgent.report.  math.exp is modelled by expFn, which
returns none exactly when the exponentiation raises OverflowError, and
round_sigfigs (from parlai.core.utils, outside this repository) by the
parameter roundSig, applied with 4 significant figures. -/
def report (roundSig : ℚ → ℚ) (expFn : ℚ → Option ℚ) (m : Metrics) : Report :=
  if 0 < m.num_tokens then
    let avg : ℚ := m.loss / (m.num_tokens : ℚ)
    { token_acc :=
        if 0 < m.correct_tokens then
          some (roundSig ((m.correct_tokens : ℚ) / (m.num_tokens : ℚ)))
        else none
      loss := some (roundSig avg)
      ppl := some (roundPpl roundSig (match expFn avg with
        | some e => .fin e
        | none => .inf))
      total_skipped_batches :=
        if 0 < m.total_skipped_batches then
          some (roundSig (m.total_skipped_batches : ℚ))
        else none }
  else
    { token_acc := none
      loss := none
      ppl := none
      total_skipped_batches :=
        if 0 < m.total_skipped_batches then
          some (roundSig (m.total_skipped_batches : ℚ))
        else none }

/-! ## Agent state, observe and reset -/

/-- An incoming observation dict, with the fields the agent reads. -/
structure Observation where
  text : Option String
  labels : Option String
  eval_labels : Option String
  label_candidates : List String
  preprocessed : Bool
  text2vec : Option (List ℕ)
  deriving Repr, DecidableEq

/-- The per-instance mutable state of the agent that observe and reset
touch: the current observation, the dialog history, the per-batch-slot
last answers, and the metrics. -/
structure AgentState where
  observation : Option Observation
  history : List (String × List ℕ)
  answers : List (Option (List ℕ))
  metrics : Metrics
  batch_idx : ℕ
  truncate : Option ℕ
  deriving Repr, DecidableEq

/-- TransformerAgent.reset: clear the observation and the history, set
every answers slot to None, and reset the metrics. -/
def reset (st : AgentState) : AgentState :=
  { st with
    observation := none
    history := []
    answers := st.answers.map (fun _ => none)
    metrics := reset_metrics st.metrics }

/-- deque(v, maxlen=t): keep only the last t elements (no bound when t
is none, matching truncate being None). -/
def deqTrunc (t : Option ℕ) (l : List ℕ) : List ℕ :=
  match t with
  | none => l
  | some n => l.drop (l.length - n)

/-- TransformerAgent.observe.  maintain_dialog_history is library code
outside this repository, taken here as the parameter mdh, which receives
the history, the observation and the answer stored for this slot and
returns the new text2vec and the updated history. -/
def observe
    (mdh : List (String × List ℕ) → Observation → Option (List ℕ) →
      List ℕ × List (String × List ℕ))
    (st : AgentState) (observation : Observation) : AgentState :=
  let obs := observation
  let p :=
    if !obs.preprocessed || obs.text2vec = none then
      let vh := mdh st.history obs (st.answers.getD st.batch_idx none)
      ({ obs with text2vec := some vh.1 }, vh.2)
    else
      ({ obs with text2vec := some (deqTrunc st.truncate (obs.text2vec.getD [])) },
        st.history)
  { st with
    observation := some p.1
    history := p.2
    answers := st.answers.set st.batch_idx none }

/-! ## Saving and loading model and optimizer state (save, __init__) -/

/-- A state dict (torch) modelled as a plain association list of named
parameter values. -/
abbrev StateDict : Type := List (String × ℚ)

/-- The slice of self.opt that save and the constructor read: the
model_file entry (None when absent), the configured optimizer name, and
the remaining option entries, which are only pickled. -/
structure Opt where
  model_file : Option String
  optimizer : String
  rest : List (String × String)
  deriving Repr, DecidableEq

/-- The neural model attribute: its state dict and its longest_label. -/
structure ModelComp where
  state_dict : StateDict
  longest_label : ℕ
  deriving Repr, DecidableEq

/-- The optimizer attribute: its state dict. -/
structure Optim where
  state_dict : StateDict
  deriving Repr, DecidableEq

/-- The attributes of the agent that save reads.  hasattr(self, 'model')
and hasattr(self, 'optimizer') are modelled by Option: the optimizer
attribute only exists when the agent was constructed with a training
datatype (constructor line 328). -/
structure SaveAgent where
  opt : Opt
  model : Option ModelComp
  optimizer : Option Optim
  deriving Repr, DecidableEq

/-- The record torch.save writes: model state dict, longest_label,
optimizer state dict and optimizer type (save lines 705-709). -/
structure SavedRecord where
  model : StateDict
  longest_label : ℕ
  optimizer : StateDict
  optimizer_type : String
  deriving Repr, DecidableEq

/-- A file written by save: either the torch-saved record or the pickled
options file. -/
inductive SavedFile where
  | record (r : SavedRecord)
  | optFile (o : Opt)
  deriving Repr, DecidableEq

/-- Python exceptions raised by the embedded code. -/
inductive PyErr where
  | nameError (name : String)
  | attributeError (name : String)
  | runtimeError (msg : String)
  deriving Repr, DecidableEq

/-- Python truthiness of an optional string: None and the empty string
are falsy. -/
def strTruthy : Option String → Bool
  | none => false
  | some s => s ≠ ""

/-- The first line of save: path = self.opt.get('model_file', None) if
path is None else path. -/
def effectivePath (a : SaveAgent) (path : Option String) : Option String :=
  match path with
  | none => a.opt.model_file
  | some p => some p

/-- TransformerAgent.save.  The filesystem effect is returned as the
list of (path, contents) writes; the agent itself is returned unchanged
(the method does not mutate any attribute).  Accessing self.optimizer on
an agent without one raises AttributeError. -/
def save (a : SaveAgent) (path : Option String) :
    Except PyErr (List (String × SavedFile) × SaveAgent) := do
  let path := effectivePath a path
  if strTruthy path then
    match a.model with
    | some m =>
      let p := path.getD ""
      let optim ← match a.optimizer with
        | some o => pure o
        | none => throw (.attributeError "optimizer")
      let rec' : SavedRecord :=
        { model := m.state_dict
          longest_label := m.longest_label
          optimizer := optim.state_dict
          optimizer_type := a.opt.optimizer }
      pure ([(p, .record rec'), (p ++ ".opt", .optFile a.opt)], a)
    | none => pure ([], a)
  else
    pure ([], a)

/-- The states record loaded from disk by the constructor (the record
written by save). -/
structure LoadedStates where
  model : StateDict
  optimizer : Option StateDict
  optimizer_type : String
  deriving Repr, DecidableEq

/-- The tail of TransformerAgent.__init__ that applies loaded states
(lines 310-312 and 353-362), for an agent constructed for training.
freshModel and freshOpt are the newly initialized model parameters and
optimizer state; loadOk o is false exactly when
optimizer.load_state_dict(o) raises ValueError (torch validates the
state dict before mutating, so on ValueError the fresh state is kept).
Returns the resulting model parameters and optimizer state. -/
def initStates (states : Option LoadedStates)
    (freshModel : StateDict) (freshOpt : StateDict)
    (cfgOptimizer : String) (loadOk : StateDict → Bool) :
    StateDict × StateDict :=
  let modelSD :=
    match states with
    | some s => s.model
    | none => freshModel
  let optSD :=
    match states with
    | some s =>
      match s.optimizer with
      | some o =>
        if s.optimizer_type ≠ cfgOptimizer then freshOpt
        else if loadOk o then o else freshOpt
      | none => freshOpt
    | none => freshOpt
  (modelSD, optSD)

/-! ## The training branch of predict (lines 509-544) -/

/-- A 2-D tensor: a batch of token index rows. -/
abbrev Tensor2 : Type := List (List ℕ)

/-- Python substring test: sub in s, as a search for sub at every
offset of s. -/
def strContains (s sub : String) : Bool :=
  (List.range (s.toList.length + 1)).any
    (fun i => sub.toList.isPrefixOf (s.toList.drop i))

/-- Outcome of the try block of the training branch (model forward,
cal_performance, the three metric additions and loss.backward; torch
code outside this repository): either the computed values, or a
RuntimeError raised partway through, carrying the metric increments that
were already applied before the raise (all zero when the forward pass
itself raised; the full values when backward raised). -/
inductive TryOutcome where
  | ok (preds : Tensor2) (cand_preds : Option (List (List ℕ)))
      (loss : ℚ) (correct : ℕ) (target_tokens : ℕ)
  | raised (partialLoss : ℚ) (partialCorrect : ℕ) (partialTokens : ℕ)
      (msg : String)

/-- The training branch of predict: on success the metrics are updated
and update_params runs; on a RuntimeError mentioning out of memory the
batch is skipped, total_skipped_batches is incremented and (None, None)
is returned without the parameter update; any other RuntimeError is
re-raised.  The boolean in the result records whether update_params
performed the optimization step. -/
def trainStep (m : Metrics) (outcome : TryOutcome) :
    Except PyErr (Metrics × Option Tensor2 × Option (List (List ℕ)) × Bool) :=
  match outcome with
  | .ok preds cand_preds loss correct target_tokens =>
    .ok ({ m with
            correct_tokens := m.correct_tokens + correct
            loss := m.loss + loss
            num_tokens := m.num_tokens + target_tokens },
      some preds, cand_preds, true)
  | .raised pl pc pt msg =>
    let m := { m with
                correct_tokens := m.correct_tokens + pc
                loss := m.loss + pl
                num_tokens := m.num_tokens + pt }
    if strContains msg "out of memory" then
      .ok ({ m with total_skipped_batches := m.total_skipped_batches + 1 },
        none, none, false)
    else
      .error (.runtimeError msg)

/-! ## Dictionary, parse and v2t -/

/-- Modelled from the spec: DictionaryAgent (parlai.core.dict, outside
this repository) is the "vocabulary mapping between token strings and
integer indices": a tokenizer splitting text into token strings, the
inverse joining tokens back into text, the two directions of the
token-index mapping, and the special start and end token indices. -/
structure DictAgent where
  tokenize : String → List String
  detokenize : List String → String
  tok2ind : String → ℕ
  ind2tok : ℕ → String
  start_idx : ℕ
  end_idx : ℕ

/-- DictionaryAgent.txt2vec: tokenize and map tokens to indices. -/
def txt2vec (d : DictAgent) (text : String) : List ℕ :=
  (d.tokenize text).map d.tok2ind

/-- DictionaryAgent.vec2txt: map indices to tokens and join. -/
def vec2txt (d : DictAgent) (vec : List ℕ) : String :=
  d.detokenize (vec.map d.ind2tok)

/-- TransformerAgent.parse (lines 398-400): self.dict.txt2vec(text). -/
def parse (d : DictAgent) (text : String) : List ℕ :=
  txt2vec d text

/-- TransformerAgent.v2t (lines 402-410): stop at the first END_IDX,
skip every START_IDX, and convert the remaining indices to text. -/
def v2t (d : DictAgent) (vec : List ℕ) : String :=
  vec2txt d
    ((vec.takeWhile (fun i => i ≠ d.end_idx)).filter (fun i => i ≠ d.start_idx))

/-! ## mydefaultdict and the perplexity evaluator's distribution -/

/-- Python truthiness of an optional float: None and 0.0 are falsy. -/
def qTruthy : Option ℚ → Bool
  | none => false
  | some q => q ≠ 0

/-- Python: a or b. -/
def pyOr (a b : Option ℚ) : Option ℚ :=
  if qTruthy a then a else b

/-- dict.get(key, default) on the underlying dict: the stored value when
the key is present, the given default otherwise. -/
def dictGet (entries : List (String × ℚ)) (key : String) : Option ℚ :=
  (entries.find? (fun e => e.1 = key)).map (fun e => e.2)

/-- dict[key] = v: overwrite the entry when present, append otherwise. -/
def dictSet (entries : List (String × ℚ)) (key : String) (v : ℚ) :
    List (String × ℚ) :=
  if entries.any (fun e => e.1 = key) then
    entries.map (fun e => if e.1 = key then (key, v) else e)
  else
    entries ++ [(key, v)]

/-- The mydefaultdict class (lines 736-742): a dict plus the default
factory. -/
structure mydefaultdict where
  entries : List (String × ℚ)
  default_factory : Unit → ℚ

/-- mydefaultdict.get: super().get(key, default or
self.default_factory()), so a falsy explicit default is replaced by the
factory value. -/
def mydefaultdict.get (d : mydefaultdict) (key : String)
    (default : Option ℚ) : Option ℚ :=
  match dictGet d.entries key with
  | some v => some v
  | none => pyOr default (some (d.default_factory ()))

/-- The distribution built by
PerplexityEvaluatorAgent.next_word_probability (lines 808-812):
dist = mydefaultdict(lambda: 1e-7), then dist[self.dict[i]] = probs[i]
for each index i of the softmaxed scores. -/
def next_word_dist (d : DictAgent) (probs : List ℚ) : mydefaultdict :=
  { entries :=
      ((List.range probs.length).zip probs).foldl
        (fun acc ip => dictSet acc (d.ind2tok ip.1) ip.2) []
    default_factory := fun _ => 1 / 10000000 }

/-! ## The evaluation branch of predict, vectorize and batch_act -/

/-- Softmax scores returned by Transformer.evaluate (modules.py, not
part of this repository). -/
abbrev EvalScores : Type := List (List ℚ)

/-- A Python object as stored in predict's local scope. -/
inductive PyObj where
  | pynone
  | pybool (b : Bool)
  | tensor (t : Tensor2)
  | scores (s : EvalScores)

/-- The model interface predict relies on: evaluate for the ys = None
evaluation path, and the combined forward / cal_performance / backward
computation (torch code outside this repository) whose outcome drives
the training and labelled-evaluation paths. -/
structure Model where
  evaluate : Tensor2 → EvalScores
  fwd : Tensor2 → Option Tensor2 → TryOutcome

/-- Whether the forward/backward computation completed without a
RuntimeError. -/
def TryOutcome.isOk : TryOutcome → Bool
  | .ok .. => true
  | .raised .. => false

/-- Name lookup in a Python local scope. -/
def lookupLocal (env : List (String × PyObj)) (name : String) : Option PyObj :=
  (env.find? (fun e => e.1 = name)).map (fun e => e.2)

/-- The local variables of predict that are bound when line 558 runs on
the ys = None evaluation path: the parameters (line 502), predictions
and cand_preds (line 508), out and scores (lines 554, 556), and the
reassignment of cand_preds (line 557). -/
def predictEvalLocals (model : Model) (xs : Tensor2) : List (String × PyObj) :=
  [("xs", .tensor xs), ("ys", .pynone), ("cands", .pynone),
    ("valid_cands", .pynone), ("is_training", .pybool false),
    ("predictions", .pynone), ("cand_preds", .pynone),
    ("out", .scores (model.evaluate xs)),
    ("scores", .scores (model.evaluate xs)),
    ("cand_preds", .pynone)]

/-- torch.stack([torch.tensor(p[0]) for p in v]) from lines 558-559,
applied to whatever object the name predicted denotes. -/
def stackFirsts : PyObj → Except PyErr PyObj
  | .tensor t => .ok (.tensor (t.map (fun row => [row.headD 0])))
  | .scores s => .ok (.tensor (s.map (fun _ => [0])))
  | _ => .error (.runtimeError "object is not iterable")

/-- The ys = None evaluation branch of predict (lines 553-559).  The
list comprehension at line 558 reads the name predicted from the local
scope; a name that is not bound raises NameError. -/
def predictEvalNoYs (model : Model) (xs : Tensor2) :
    Except PyErr (Option Tensor2 × Option (List (List ℕ))) :=
  let env := predictEvalLocals model xs
  match lookupLocal env "predicted" with
  | none => .error (.nameError "predicted")
  | some v =>
    match stackFirsts v with
    | .ok (.tensor t) => .ok (some t, none)
    | .ok _ => .ok (none, none)
    | .error e => .error e

/-- TransformerAgent.predict for a non-candidate batch (the
rank-candidates option defaults to False, so cands and valid_cands are
None): dispatch on is_training and on the presence of targets.  In the
labelled evaluation path only loss and num_tokens are accumulated and
cand_preds is reset to None (lines 561-577). -/
def predict (model : Model) (m : Metrics) (xs : Tensor2)
    (ys : Option Tensor2) (is_training : Bool) :
    Except PyErr (Metrics × Option Tensor2 × Option (List (List ℕ))) :=
  if is_training then
    match trainStep m (model.fwd xs ys) with
    | .ok (m2, preds, cand_preds, _) => .ok (m2, preds, cand_preds)
    | .error e => .error e
  else
    match ys with
    | none =>
      match predictEvalNoYs model xs with
      | .ok (preds, cand_preds) => .ok (m, preds, cand_preds)
      | .error e => .error e
    | some gold =>
      match model.fwd xs (some gold) with
      | .ok preds _ loss _ target_tokens =>
        .ok ({ m with
                loss := m.loss + loss
                num_tokens := m.num_tokens + target_tokens },
          some preds, none)
      | .raised _ _ _ msg => .error (.runtimeError msg)

/-- The label an observation offers: its labels entry, else (when eval
labels are to be used) its eval_labels entry. -/
def obsLabel (evalLabels : Bool) (o : Observation) : Option String :=
  match o.labels with
  | some l => some l
  | none => if evalLabels then o.eval_labels else none

/-- Pad one token row on the right with the null index up to length n. -/
def padRow (nullIdx n : ℕ) (row : List ℕ) : List ℕ :=
  row ++ List.replicate (n - row.length) nullIdx

/-- The longest row length of a batch. -/
def maxLen (rows : List (List ℕ)) : ℕ :=
  rows.foldr (fun r acc => max r.length acc) 0

/-- Pad a batch of rows with the null index to the longest row length,
making it rectangular. -/
def padBatch (nullIdx : ℕ) (rows : List (List ℕ)) : List (List ℕ) :=
  rows.map (padRow nullIdx (maxLen rows))

/-- The output of pad_text that vectorize passes on. -/
structure Padded where
  xs : List (List ℕ)
  ys : Option (List (List ℕ))
  labels : Option (List String)
  valid_inds : List ℕ

/-- The valid examples of a batch: the observations with a nonempty
text, paired with their indices. -/
def validExs (observations : List Observation) : List (ℕ × Observation) :=
  ((List.range observations.length).zip observations).filter
    (fun p => strTruthy p.2.text)

/-- The padded batch built from a nonempty list of valid examples: their
token vectors, truncated to the last truncate tokens, padded with the
null index to the longest length; when every valid example carries a
label, the labels are vectorized and padded the same way. -/
def padValid (d : DictAgent) (nullIdx : ℕ) (truncate : Option ℕ)
    (evalLabels : Bool) (valid : List (ℕ × Observation)) : Padded :=
  let xsRaw := valid.map
    (fun p => deqTrunc truncate (txt2vec d (p.2.text.getD "")))
  let labs :=
    if valid.all (fun p => (obsLabel evalLabels p.2).isSome) then
      some (valid.map (fun p => (obsLabel evalLabels p.2).getD ""))
    else none
  { xs := padBatch nullIdx xsRaw
    ys := labs.map (fun ls =>
      padBatch nullIdx (ls.map (fun l => deqTrunc truncate (txt2vec d l))))
    labels := labs
    valid_inds := valid.map (fun p => p.1) }

/-- Modelled from the spec: PaddingUtils.pad_text (parlai.core.utils,
outside this repository), following the spec's sentence that a batch is
"a fixed-size group of dialogue turns padded to equal length for tensor
processing".  When no observation is valid the result is None. -/
def pad_text (d : DictAgent) (nullIdx : ℕ) (truncate : Option ℕ)
    (evalLabels : Bool) (observations : List Observation) : Option Padded :=
  match validExs observations with
  | [] => none
  | v1 :: vrest => some (padValid d nullIdx truncate evalLabels (v1 :: vrest))

/-- The tuple vectorize produces (minus the candidate tensors, absent
with the default rank_candidates=False). -/
structure Vectorized where
  xs : List (List ℕ)
  ys : Option (List (List ℕ))
  labels : Option (List String)
  valid_inds : List ℕ
  is_training : Bool

/-- TransformerAgent.vectorize (lines 590-626): is_training is whether
any observation has labels; the batch is padded by pad_text with eval
labels enabled; returns None when pad_text found no valid example. -/
def vectorize (d : DictAgent) (nullIdx : ℕ) (truncate : Option ℕ)
    (observations : List Observation) : Option Vectorized :=
  let is_training := observations.any (fun o => o.labels.isSome)
  match pad_text d nullIdx truncate true observations with
  | none => none
  | some p =>
    some { xs := p.xs, ys := p.ys, labels := p.labels,
           valid_inds := p.valid_inds, is_training := is_training }

/-- A reply dict in batch_reply: initialized with only the agent's id
(line 658); text and text_candidates may be filled in later. -/
structure Reply where
  id : String
  text : Option String
  text_candidates : Option (List String)
  deriving Repr, DecidableEq

/-- The reply batch_act starts from: only the id field is set. -/
def emptyReply (c : String) : Reply :=
  { id := c, text := none, text_candidates := none }

/-- Update the reply at index i, when it exists. -/
def updateReply (rs : List Reply) (i : ℕ) (f : Reply → Reply) : List Reply :=
  match rs[i]? with
  | some r => rs.set i (f r)
  | none => rs

/-- Modelled from the spec: PaddingUtils.map_predictions
(parlai.core.utils, outside this repository): each prediction is
detokenized (with v2t's END truncation) and written as the text of the
reply at its observation's index, and stored in the answers slot for
that index; the reply's id is left in place. -/
def map_predictions (d : DictAgent) (pvs : List (List ℕ × ℕ))
    (replies : List Reply) (answers : List (Option (List ℕ))) :
    List Reply × List (Option (List ℕ)) :=
  match pvs with
  | [] => (replies, answers)
  | pv :: rest =>
    let toks := pv.1
    map_predictions d rest
      (updateReply replies pv.2 (fun r => { r with text := some (v2t d toks) }))
      (answers.set pv.2 (some toks))

/-- The candidate-ordering block of batch_act (lines 684-692): for each
returned candidate order, the reply of the corresponding valid
observation gets the reordered in-range candidates as text_candidates. -/
def applyCandPreds (cands : List String) (co : List (List ℕ × ℕ))
    (replies : List Reply) : List Reply :=
  match co with
  | [] => replies
  | c :: rest =>
    let tc := (c.1.filter (fun idx => idx < cands.length)).map
      (fun idx => cands.getD idx "")
    applyCandPreds cands rest
      (updateReply replies c.2 (fun r => { r with text_candidates := some tc }))

/-- The agent attributes batch_act reads. -/
structure BAgent where
  id : String
  dict : DictAgent
  null_idx : ℕ
  truncate : Option ℕ
  model : Model

/-- TransformerAgent.batch_act (lines 654-694): build a reply per
observation holding the agent's id, vectorize the batch, return the
id-only replies when there is no valid example, otherwise run predict
and map the predictions (and candidate orders) into the replies.
Returns the replies together with the updated metrics and answers. -/
def batch_act (a : BAgent) (m : Metrics) (answers : List (Option (List ℕ)))
    (observations : List Observation) :
    Except PyErr (List Reply × Metrics × List (Option (List ℕ))) :=
  let batch_reply := observations.map (fun _ => emptyReply a.id)
  match vectorize a.dict a.null_idx a.truncate observations with
  | none => .ok (batch_reply, m, answers)
  | some v =>
    match predict a.model m v.xs v.ys v.is_training with
    | .error e => .error e
    | .ok (m2, preds, cand_preds) =>
      let ra :=
        match preds with
        | some p => map_predictions a.dict (p.zip v.valid_inds) batch_reply answers
        | none => (batch_reply, answers)
      let replies :=
        match cand_preds with
        | some cp =>
          applyCandPreds (v.labels.getD []) (cp.zip v.valid_inds) ra.1
        | none => ra.1
      .ok (replies, m2, ra.2)

/-! ## Concrete instances used by witnesses and counterexamples -/

/-- A concrete finite dictionary: two real words plus unk, start and
end markers. -/
def dictEx : DictAgent :=
  { tokenize := fun t => if t = "hello world" then ["hello", "world"] else [t]
    detokenize := fun l =>
      if l = ["hello", "world"] then "hello world"
      else if l = ["hello"] then "hello" else ""
    tok2ind := fun t => if t = "hello" then 5 else if t = "world" then 6 else 3
    ind2tok := fun i =>
      if i = 5 then "hello" else if i = 6 then "world" else "__unk__"
    start_idx := 1
    end_idx := 2 }

/-- A concrete model whose forward/backward always succeeds. -/
def modelEx : Model :=
  { evaluate := fun _ => [[1/2, 1/2]]
    fwd := fun _ _ => .ok [[5]] none 1 1 1 }

/-- A concrete batch-acting agent. -/
def bAgentEx : BAgent :=
  { id := "Transformer", dict := dictEx, null_idx := 0,
    truncate := none, model := modelEx }

/-- A concrete labelled observation (a training example). -/
def obsLabEx : Observation :=
  { text := some "hello", labels := some "world", eval_labels := none,
    label_candidates := [], preprocessed := false, text2vec := none }

/-- The value vectorize produces on the one-element labelled batch. -/
def vectEx : Vectorized :=
  { xs := [[5]], ys := some [[6]], labels := some ["world"],
    valid_inds := [0], is_training := true }

/-- A concrete observation. -/
def obsEx : Observation :=
  { text := some "hello", labels := none, eval_labels := none,
    label_candidates := [], preprocessed := false, text2vec := none }

/-- A concrete agent state with two answer slots. -/
def agentStateEx : AgentState :=
  { observation := none, history := [], answers := [some [3], none],
    metrics := initMetrics, batch_idx := 0, truncate := none }

/-- A concrete maintain_dialog_history stand-in. -/
def mdhEx : List (String × List ℕ) → Observation → Option (List ℕ) →
    List ℕ × List (String × List ℕ) :=
  fun h _ _ => ([1, 2], h)

/-- A concrete save-time agent with a model but no optimizer attribute,
as constructed with a non-training datatype. -/
def evalAgentEx : SaveAgent :=
  { opt := { model_file := some "m.pt", optimizer := "sgd", rest := [] }
    model := some { state_dict := [("w", 1)], longest_label := 1 }
    optimizer := none }

/-- A concrete save-time agent with both a model and an optimizer. -/
def trainAgentEx : SaveAgent :=
  { opt := { model_file := some "m.pt", optimizer := "sgd", rest := [] }
    model := some { state_dict := [("w", 1)], longest_label := 1 }
    optimizer := some { state_dict := [("mom", 2)] } }

end Transformer

/-! ## Claim theorems for metrics -/

open Transformer

/-- C1: for every metrics state with num_tokens > 0, report returns a
dict whose loss entry is the rounded average token loss and whose ppl
entry is the rounded exp of that average, infinity on overflow; with
num_tokens = 0 none of loss, ppl, token_acc appears. -/
theorem report_loss_ppl (roundSig : ℚ → ℚ) (expFn : ℚ → Option ℚ) (m : Metrics) :
    (0 < m.num_tokens →
      (report roundSig expFn m).loss = some (roundSig (m.loss / (m.num_tokens : ℚ))) ∧
      (report roundSig expFn m).ppl = some (match expFn (m.loss / (m.num_tokens : ℚ)) with
        | some e => .fin (roundSig e)
        | none => .inf)) ∧
    (m.num_tokens = 0 →
      (report roundSig expFn m).loss = none ∧
      (report roundSig expFn m).ppl = none ∧
      (report roundSig expFn m).token_acc = none) := by
  constructor
  · intro h
    constructor
    · simp [report, h]
    · cases hE : expFn (m.loss / (m.num_tokens : ℚ)) <;>
        simp [report, h, roundPpl, hE]
  · intro h
    simp [report, h]

/-- Witness for C1 at a concrete metrics state with num_tokens = 2. -/
theorem report_loss_ppl_witness :
    0 < metricsEx.num_tokens ∧
    (report id (fun q => some q) metricsEx).loss =
      some (id (metricsEx.loss / (metricsEx.num_tokens : ℚ))) ∧
    (report id (fun q => some q) metricsEx).ppl =
      some (.fin (id (metricsEx.loss / (metricsEx.num_tokens : ℚ)))) :=
  ⟨by decide,
    ((report_loss_ppl id (fun q => some q) metricsEx).1 (by decide)).1,
    ((report_loss_ppl id (fun q => some q) metricsEx).1 (by decide)).2⟩

/-- C9: reset_metrics zeroes loss, num_tokens and correct_tokens but
leaves total_skipped_batches unchanged, and the reset performed by reset
likewise preserves total_skipped_batches. -/
theorem reset_metrics_keeps_skipped (m : Metrics) (st : AgentState) :
    (reset_metrics m).loss = 0 ∧
    (reset_metrics m).num_tokens = 0 ∧
    (reset_metrics m).correct_tokens = 0 ∧
    (reset_metrics m).total_skipped_batches = m.total_skipped_batches ∧
    (reset st).metrics.total_skipped_batches = st.metrics.total_skipped_batches := by
  refine ⟨rfl, rfl, rfl, rfl, rfl⟩

/-- C8: after observe, the answers slot for this agent's batch index is
None, whatever the observation and the history maintenance do. -/
theorem observe_clears_answer
    (mdh : List (String × List ℕ) → Observation → Option (List ℕ) →
      List ℕ × List (String × List ℕ))
    (st : AgentState) (obs : Observation)
    (h : st.batch_idx < st.answers.length) :
    (observe mdh st obs).answers[st.batch_idx]? = some none := by
  simp only [observe]
  exact List.getElem?_set_eq_of_lt none h

/-- Witness for C8 at a concrete state. -/
theorem observe_clears_answer_witness :
    agentStateEx.batch_idx < agentStateEx.answers.length ∧
    (observe mdhEx agentStateEx obsEx).answers[agentStateEx.batch_idx]? = some none :=
  ⟨by decide, observe_clears_answer mdhEx agentStateEx obsEx (by decide)⟩

/-- Counterexample to C3 as stated: this agent has a model and a save
path (model_file is set), yet save raises AttributeError because the
agent, constructed with a non-training datatype, has no optimizer
attribute (save line 708 reads self.optimizer unconditionally), so
nothing is persisted. -/
theorem save_no_optimizer_raises :
    evalAgentEx.model.isSome = true ∧
    effectivePath evalAgentEx none = some "m.pt" ∧
    save evalAgentEx none = .error (.attributeError "optimizer") := by
  refine ⟨rfl, rfl, ?_⟩
  rfl

/-- C3 (amended): for every agent that has a model and an optimizer,
whenever a save path is given (as the argument or via model_file), save
writes to that path the record of model state dict, longest_label,
optimizer state dict and configured optimizer type, plus the options at
path ++ ".opt", and returns the agent unchanged; when no (nonempty) path
is available it writes nothing and the agent is unchanged. -/
theorem save_persists (a : SaveAgent) (path : Option String)
    (m : ModelComp) (o : Optim)
    (hm : a.model = some m) (ho : a.optimizer = some o) :
    (∀ p, effectivePath a path = some p → p ≠ "" →
      save a path = .ok
        ([(p, .record
            { model := m.state_dict
              longest_label := m.longest_label
              optimizer := o.state_dict
              optimizer_type := a.opt.optimizer }),
          (p ++ ".opt", .optFile a.opt)], a)) ∧
    ((effectivePath a path = none ∨ effectivePath a path = some "") →
      save a path = .ok ([], a)) := by
  constructor
  · intro p hp hne
    simp [save, hp, strTruthy, hne, hm, ho, pure, Except.pure, bind, Except.bind]
  · intro hp
    rcases hp with hp | hp <;> simp [save, hp, strTruthy, pure, Except.pure]

/-- Witness for C3 (amended) at a concrete training agent and path. -/
theorem save_persists_witness :
    trainAgentEx.model =
      some { state_dict := [("w", 1)], longest_label := 1 } ∧
    trainAgentEx.optimizer = some { state_dict := [("mom", 2)] } ∧
    effectivePath trainAgentEx (some "out.pt") = some "out.pt" ∧
    save trainAgentEx (some "out.pt") = .ok
      ([("out.pt", .record
          { model := [("w", 1)]
            longest_label := 1
            optimizer := [("mom", 2)]
            optimizer_type := "sgd" }),
        ("out.pt" ++ ".opt", .optFile trainAgentEx.opt)], trainAgentEx) :=
  ⟨rfl, rfl, rfl,
    (save_persists trainAgentEx (some "out.pt") _ _ rfl rfl).1
      "out.pt" rfl (by decide)⟩

/-- C4: construction with saved states always restores the model
parameters from states['model']; the optimizer state is restored only
when the saved optimizer_type matches the configured optimizer and
load_state_dict does not raise ValueError, otherwise the fresh optimizer
state is kept alongside the restored model. -/
theorem initStates_restores (s : LoadedStates) (fm fo : StateDict)
    (cfg : String) (loadOk : StateDict → Bool) :
    (initStates (some s) fm fo cfg loadOk).1 = s.model ∧
    (∀ o, s.optimizer = some o →
      ((s.optimizer_type = cfg ∧ loadOk o = true) →
        (initStates (some s) fm fo cfg loadOk).2 = o) ∧
      ((s.optimizer_type ≠ cfg ∨ loadOk o = false) →
        (initStates (some s) fm fo cfg loadOk).2 = fo)) ∧
    (s.optimizer = none → (initStates (some s) fm fo cfg loadOk).2 = fo) := by
  refine ⟨rfl, ?_, ?_⟩
  · intro o hoz
    constructor
    · rintro ⟨hty, hok⟩
      simp [initStates, hoz, hty, hok]
    · intro hbad
      rcases hbad with hty | hok
      · simp [initStates, hoz, hty]
      · rcases eq_or_ne s.optimizer_type cfg with hty | hty <;>
          simp [initStates, hoz, hty, hok]
  · intro hoz
    simp [initStates, hoz]

/-- Witness for C4: matching optimizer type with successful load
restores the saved optimizer state. -/
theorem initStates_restores_witness :
    (⟨[("w", 5)], some [("mom", 7)], "sgd"⟩ : LoadedStates).optimizer =
      some [("mom", 7)] ∧
    (initStates (some ⟨[("w", 5)], some [("mom", 7)], "sgd"⟩)
        [("w", 0)] [("mom", 0)] "sgd" (fun _ => true)).1 = [("w", 5)] ∧
    (initStates (some ⟨[("w", 5)], some [("mom", 7)], "sgd"⟩)
        [("w", 0)] [("mom", 0)] "sgd" (fun _ => true)).2 = [("mom", 7)] :=
  ⟨rfl,
    (initStates_restores ⟨[("w", 5)], some [("mom", 7)], "sgd"⟩
      [("w", 0)] [("mom", 0)] "sgd" (fun _ => true)).1,
    (((initStates_restores ⟨[("w", 5)], some [("mom", 7)], "sgd"⟩
      [("w", 0)] [("mom", 0)] "sgd" (fun _ => true)).2.1 [("mom", 7)] rfl).1
      ⟨rfl, rfl⟩)⟩

/-- C6: a RuntimeError whose message contains "out of memory" makes the
training step skip the batch: it returns (None, None), adds exactly one
to total_skipped_batches, and does not run update_params (final flag
false); any other RuntimeError is re-raised. -/
theorem trainStep_oom_skips (m : Metrics) (pl : ℚ) (pc pt : ℕ) (msg : String) :
    (strContains msg "out of memory" = true →
      trainStep m (.raised pl pc pt msg) = .ok
        ({ loss := m.loss + pl
           num_tokens := m.num_tokens + pt
           correct_tokens := m.correct_tokens + pc
           total_skipped_batches := m.total_skipped_batches + 1 },
          none, none, false)) ∧
    (strContains msg "out of memory" = false →
      trainStep m (.raised pl pc pt msg) = .error (.runtimeError msg)) := by
  constructor <;> intro h <;> simp [trainStep, h]

/-- Witness for C6: an out-of-memory message at the initial metrics. -/
theorem trainStep_oom_skips_witness :
    strContains "CUDA error: out of memory" "out of memory" = true ∧
    trainStep initMetrics (.raised 0 0 0 "CUDA error: out of memory") = .ok
      ({ loss := initMetrics.loss + 0
         num_tokens := initMetrics.num_tokens + 0
         correct_tokens := initMetrics.correct_tokens + 0
         total_skipped_batches := initMetrics.total_skipped_batches + 1 },
        none, none, false) :=
  ⟨by decide,
    (trainStep_oom_skips initMetrics 0 0 0 "CUDA error: out of memory").1
      (by decide)⟩

/-- C7: v2t strips START_IDX and truncates at END_IDX, so on an index
sequence containing neither it renders exactly that sequence's tokens in
order (it agrees with plain vec2txt); consequently, when the dictionary
inverts its own tokenization on the given text and parse produces no
START_IDX or END_IDX, v2t (parse text) = text. -/
theorem v2t_parse_round_trip (d : DictAgent) (text : String) (vec : List ℕ)
    (hvec : ∀ i ∈ vec, i ≠ d.end_idx ∧ i ≠ d.start_idx) :
    v2t d vec = vec2txt d vec ∧
    ((∀ tok ∈ d.tokenize text, d.ind2tok (d.tok2ind tok) = tok) →
      d.detokenize (d.tokenize text) = text →
      (∀ i ∈ parse d text, i ≠ d.end_idx ∧ i ≠ d.start_idx) →
      v2t d (parse d text) = text) := by
  have key : ∀ w : List ℕ, (∀ i ∈ w, i ≠ d.end_idx ∧ i ≠ d.start_idx) →
      v2t d w = vec2txt d w := by
    intro w hw
    unfold v2t
    have h1 : w.takeWhile (fun i => i ≠ d.end_idx) = w := by
      rw [List.takeWhile_eq_self_iff]
      intro x hx
      simpa using (hw x hx).1
    rw [h1, List.filter_eq_self.mpr]
    intro a ha
    simpa using (hw a ha).2
  refine ⟨key vec hvec, ?_⟩
  intro hinv hdet hnospecial
  rw [key (parse d text) hnospecial]
  unfold vec2txt parse txt2vec
  rw [List.map_map]
  have hmap : ∀ l : List String, (∀ tok ∈ l, d.ind2tok (d.tok2ind tok) = tok) →
      List.map (d.ind2tok ∘ d.tok2ind) l = l := by
    intro l hl
    induction l with
    | nil => rfl
    | cons a t ih =>
      simp only [List.map_cons]
      rw [ih (fun x hx => hl x (List.mem_cons_of_mem a hx))]
      have := hl a (List.mem_cons_self a t)
      simp [Function.comp, this]
  rw [hmap (d.tokenize text) hinv, hdet]

/-- Witness for C7 at the concrete dictionary and the text
"hello world", whose parse is [5, 6]. -/
theorem v2t_parse_round_trip_witness :
    (∀ i ∈ parse dictEx "hello world",
      i ≠ dictEx.end_idx ∧ i ≠ dictEx.start_idx) ∧
    v2t dictEx (parse dictEx "hello world") = "hello world" :=
  ⟨by decide,
    (v2t_parse_round_trip dictEx "hello world" (parse dictEx "hello world")
        (by decide)).2
      (by decide) (by decide) (by decide)⟩

/-- C10: the distribution returned by next_word_probability maps every
absent word to the factory default 1e-7: mydefaultdict.get substitutes
the default-factory value whenever the key is missing, even when the
caller passes an explicit falsy default. -/
theorem next_word_dist_get_default (d : DictAgent) (probs : List ℚ)
    (key : String) (default : Option ℚ)
    (hmiss : dictGet (next_word_dist d probs).entries key = none)
    (hfalsy : qTruthy default = false) :
    (next_word_dist d probs).get key default = some (1 / 10000000) := by
  unfold mydefaultdict.get
  rw [hmiss]
  simp [pyOr, hfalsy, next_word_dist]

/-- Witness for C10: a word absent from the distribution, with the
explicit falsy default 0.0, still gets probability 1e-7. -/
theorem next_word_dist_get_default_witness :
    dictGet (next_word_dist dictEx [1/2]).entries "zzz" = none ∧
    qTruthy (some 0) = false ∧
    (next_word_dist dictEx [1/2]).get "zzz" (some 0) = some (1 / 10000000) :=
  ⟨by decide, by decide,
    next_word_dist_get_default dictEx [1/2] "zzz" (some 0)
      (by decide) (by decide)⟩

/-! ## Helper lemmas on reply updates and padding -/

theorem updateReply_length (rs : List Reply) (i : ℕ) (f : Reply → Reply) :
    (updateReply rs i f).length = rs.length := by
  unfold updateReply
  cases h : rs[i]? <;> simp

theorem updateReply_ids (rs : List Reply) (i : ℕ) (f : Reply → Reply)
    (c : String) (hall : ∀ r ∈ rs, r.id = c) (hf : ∀ r, (f r).id = r.id) :
    ∀ r ∈ updateReply rs i f, r.id = c := by
  intro r hr
  unfold updateReply at hr
  cases h : rs[i]? with
  | none => rw [h] at hr; exact hall r hr
  | some r0 =>
    rw [h] at hr
    rcases List.mem_or_eq_of_mem_set hr with hm | he
    · exact hall r hm
    · rw [he, hf r0]
      exact hall r0 (List.getElem?_mem h)

theorem map_predictions_length (d : DictAgent) (pvs : List (List ℕ × ℕ))
    (rs : List Reply) (ans : List (Option (List ℕ))) :
    (map_predictions d pvs rs ans).1.length = rs.length := by
  induction pvs generalizing rs ans with
  | nil => rfl
  | cons pv rest ih =>
    simp only [map_predictions]
    rw [ih, updateReply_length]

theorem map_predictions_ids (d : DictAgent) (pvs : List (List ℕ × ℕ))
    (rs : List Reply) (ans : List (Option (List ℕ))) (c : String)
    (hall : ∀ r ∈ rs, r.id = c) :
    ∀ r ∈ (map_predictions d pvs rs ans).1, r.id = c := by
  induction pvs generalizing rs ans with
  | nil => exact hall
  | cons pv rest ih =>
    exact ih _ _ (updateReply_ids _ _ _ c hall (fun r => rfl))

theorem applyCandPreds_length (cands : List String) (co : List (List ℕ × ℕ))
    (rs : List Reply) :
    (applyCandPreds cands co rs).length = rs.length := by
  induction co generalizing rs with
  | nil => rfl
  | cons c rest ih =>
    simp only [applyCandPreds]
    rw [ih, updateReply_length]

theorem applyCandPreds_ids (cands : List String) (co : List (List ℕ × ℕ))
    (rs : List Reply) (c : String) (hall : ∀ r ∈ rs, r.id = c) :
    ∀ r ∈ applyCandPreds cands co rs, r.id = c := by
  induction co generalizing rs with
  | nil => exact hall
  | cons e rest ih =>
    exact ih _ (updateReply_ids _ _ _ c hall (fun r => rfl))

theorem length_le_maxLen (rows : List (List ℕ)) (r : List ℕ) (hr : r ∈ rows) :
    r.length ≤ maxLen rows := by
  induction rows with
  | nil => cases hr
  | cons a t ih =>
    rcases List.mem_cons.mp hr with h | h
    · rw [h]; exact le_max_left _ _
    · exact le_trans (ih h) (le_max_right _ _)

theorem padRow_length (nullIdx n : ℕ) (row : List ℕ) (h : row.length ≤ n) :
    (padRow nullIdx n row).length = n := by
  simp only [padRow, List.length_append, List.length_replicate]
  omega

theorem padBatch_rect (nullIdx : ℕ) (rows : List (List ℕ)) :
    ∀ r1 ∈ padBatch nullIdx rows, ∀ r2 ∈ padBatch nullIdx rows,
      r1.length = r2.length := by
  intro r1 h1 r2 h2
  obtain ⟨row1, hrow1, hr1⟩ := List.mem_map.mp h1
  obtain ⟨row2, hrow2, hr2⟩ := List.mem_map.mp h2
  rw [← hr1, ← hr2,
    padRow_length _ _ _ (length_le_maxLen _ _ hrow1),
    padRow_length _ _ _ (length_le_maxLen _ _ hrow2)]

theorem pad_text_rect (d : DictAgent) (nullIdx : ℕ) (truncate : Option ℕ)
    (el : Bool) (observations : List Observation) (p : Padded)
    (hp : pad_text d nullIdx truncate el observations = some p) :
    ∀ r1 ∈ p.xs, ∀ r2 ∈ p.xs, r1.length = r2.length := by
  unfold pad_text at hp
  split at hp
  · exact absurd hp (by simp)
  · cases hp
    exact padBatch_rect _ _

theorem vectorize_rect (d : DictAgent) (nullIdx : ℕ) (truncate : Option ℕ)
    (observations : List Observation) (v : Vectorized)
    (hv : vectorize d nullIdx truncate observations = some v) :
    ∀ r1 ∈ v.xs, ∀ r2 ∈ v.xs, r1.length = r2.length := by
  unfold vectorize at hv
  split at hv
  · exact absurd hv (by simp)
  · next p hp =>
    cases hv
    exact pad_text_rect d nullIdx truncate true observations p hp

/-! ## Claim theorems for predict and batch_act -/

/-- C2: the ys = None evaluation path of predict never returns
predictions: for every model and input batch it raises NameError,
because the name predicted read by the list comprehension at line 558 is
bound nowhere in the function's local scope. -/
theorem predict_eval_no_labels_raises (model : Model) (xs : Tensor2) :
    predictEvalNoYs model xs = .error (.nameError "predicted") := rfl

/-- Counterexample to C5 as stated: on the batch made of one valid
unlabeled observation in evaluation mode, batch_act propagates the
NameError raised inside predict instead of returning a reply list. -/
theorem batch_act_unlabeled_eval_raises :
    batch_act bAgentEx initMetrics [none] [obsEx] =
      .error (.nameError "predicted") := rfl

/-- C5 (amended): for every list of observations, provided the model's
forward/backward computation raises no error and the batch does not take
the broken unlabeled-evaluation path (it is a training batch or carries
labels), batch_act returns a reply list of exactly the length of the
input, each reply carrying the agent's id; vectorize packs the valid
observations into a rectangular padded batch; and when no observation is
valid the replies hold only the id. -/
theorem batch_act_replies (a : BAgent) (m : Metrics)
    (answers : List (Option (List ℕ))) (observations : List Observation)
    (hfwd : ∀ xs ys, (a.model.fwd xs ys).isOk = true)
    (hlab : ∀ v, vectorize a.dict a.null_idx a.truncate observations = some v →
      v.is_training = true ∨ v.ys.isSome = true) :
    ∃ rs m2 ans2,
      batch_act a m answers observations = .ok (rs, m2, ans2) ∧
      rs.length = observations.length ∧
      (∀ r ∈ rs, r.id = a.id) ∧
      (∀ v, vectorize a.dict a.null_idx a.truncate observations = some v →
        ∀ r1 ∈ v.xs, ∀ r2 ∈ v.xs, r1.length = r2.length) ∧
      (vectorize a.dict a.null_idx a.truncate observations = none →
        rs = observations.map (fun _ => emptyReply a.id)) := by
  have hrect : ∀ v2, vectorize a.dict a.null_idx a.truncate observations = some v2 →
      ∀ r1 ∈ v2.xs, ∀ r2 ∈ v2.xs, r1.length = r2.length :=
    fun v2 hv2 => vectorize_rect a.dict a.null_idx a.truncate observations v2 hv2
  have hbase : ∀ r ∈ observations.map (fun _ => emptyReply a.id), r.id = a.id := by
    intro r hr
    obtain ⟨o, _, hre⟩ := List.mem_map.mp hr
    rw [← hre]
    rfl
  cases hv : vectorize a.dict a.null_idx a.truncate observations with
  | none =>
    refine ⟨observations.map (fun _ => emptyReply a.id), m, answers,
      ?_, by simp, hbase, ?_, fun _ => rfl⟩
    · simp [batch_act, hv]
    · intro v2 hv2
      exact absurd hv2 (by simp)
  | some v =>
    have hpred : ∃ m2 p cp,
        predict a.model m v.xs v.ys v.is_training = .ok (m2, some p, cp) := by
      cases hit : v.is_training with
      | true =>
        cases hf : a.model.fwd v.xs v.ys with
        | ok preds cp l c t =>
          refine ⟨{ m with
              correct_tokens := m.correct_tokens + c
              loss := m.loss + l
              num_tokens := m.num_tokens + t }, preds, cp, ?_⟩
          simp [predict, hf, trainStep]
        | raised pl pc pt msg =>
          have hok := hfwd v.xs v.ys
          rw [hf] at hok
          exact absurd hok (by simp [TryOutcome.isOk])
      | false =>
        rcases hlab v hv with h | h
        · rw [hit] at h; cases h
        · obtain ⟨gold, hg⟩ := Option.isSome_iff_exists.mp h
          cases hf : a.model.fwd v.xs (some gold) with
          | ok preds cp l c t =>
            refine ⟨{ m with
                loss := m.loss + l
                num_tokens := m.num_tokens + t }, preds, none, ?_⟩
            simp [predict, hg, hf]
          | raised pl pc pt msg =>
            have hok := hfwd v.xs (some gold)
            rw [hf] at hok
            exact absurd hok (by simp [TryOutcome.isOk])
    obtain ⟨m2, p, cp, hpq⟩ := hpred
    have hveq : ∀ v2 : Vectorized, some v = some v2 →
        ∀ r1 ∈ v2.xs, ∀ r2 ∈ v2.xs, r1.length = r2.length := by
      intro v2 hv2
      cases hv2
      exact hrect v hv
    cases cp with
    | none =>
      refine ⟨(map_predictions a.dict (p.zip v.valid_inds)
          (observations.map (fun _ => emptyReply a.id)) answers).1, m2,
        (map_predictions a.dict (p.zip v.valid_inds)
          (observations.map (fun _ => emptyReply a.id)) answers).2,
        ?_, ?_, ?_, hveq, ?_⟩
      · simp [batch_act, hv, hpq]
      · rw [map_predictions_length]; simp
      · exact map_predictions_ids _ _ _ _ _ hbase
      · intro h
        exact absurd h (by simp)
    | some cpv =>
      refine ⟨applyCandPreds (v.labels.getD []) (cpv.zip v.valid_inds)
          (map_predictions a.dict (p.zip v.valid_inds)
            (observations.map (fun _ => emptyReply a.id)) answers).1, m2,
        (map_predictions a.dict (p.zip v.valid_inds)
          (observations.map (fun _ => emptyReply a.id)) answers).2,
        ?_, ?_, ?_, hveq, ?_⟩
      · simp [batch_act, hv, hpq]
      · rw [applyCandPreds_length, map_predictions_length]; simp
      · exact applyCandPreds_ids _ _ _ _
          (map_predictions_ids _ _ _ _ _ hbase)
      · intro h
        exact absurd h (by simp)

/-- Witness for C5 (amended) at a concrete one-element labelled batch. -/
theorem batch_act_replies_witness :
    ∃ rs m2 ans2,
      batch_act bAgentEx initMetrics [none] [obsLabEx] = .ok (rs, m2, ans2) ∧
      rs.length = ([obsLabEx] : List Observation).length ∧
      (∀ r ∈ rs, r.id = bAgentEx.id) ∧
      (∀ v, vectorize bAgentEx.dict bAgentEx.null_idx bAgentEx.truncate
          [obsLabEx] = some v →
        ∀ r1 ∈ v.xs, ∀ r2 ∈ v.xs, r1.length = r2.length) ∧
      (vectorize bAgentEx.dict bAgentEx.null_idx bAgentEx.truncate
          [obsLabEx] = none →
        rs = ([obsLabEx] : List Observation).map
          (fun _ => emptyReply bAgentEx.id)) :=
  batch_act_replies bAgentEx initMetrics [none] [obsLabEx]
    (fun _ _ => rfl)
    (fun v hv => by
      have h2 : vectorize bAgentEx.dict bAgentEx.null_idx bAgentEx.truncate
          [obsLabEx] = some vectEx := by rfl
      rw [h2] at hv
      rw [← Option.some.inj hv]
      exact Or.inl rfl)
